import Mathlib

/-!
Verification development for the lecture-processing pipeline
(Django app `lecture`: `tasks.py`, `services.py`, `models.py`,
`management/commands/check_stuck_tasks.py`).

The Python code is shallowly embedded: every external capability
(Gemini STT, Ollama captioning, Gemini summarization, embedding API,
ChromaDB, the relational store) is represented by an explicit outcome
value, and each Python function that the claims mention is translated
into a total Lean function over those outcomes.  Wall-clock elapsed
times are inputs (rationals), database rows are records, and a Python
exception escaping a region is an explicit error value.
-/

namespace MP

/-- Lifecycle status of a `Lecture` row (`models.py` lines 56-60:
`processing`, `completed`, `failed`). -/
inductive Status where
  | processing
  | completed
  | failed
deriving DecidableEq, Repr

/-- The `Lecture` model (`models.py` lines 34-88), restricted to the columns
the claims are about.  `hasAudio` models the truthiness of `audio_file`;
`step_times` models the JSON map from step index to elapsed seconds;
`created_at` is a timestamp in minutes. -/
structure Lecture where
  id : Nat
  status : Status
  hasAudio : Bool := true
  full_script : Option String := none
  summary_json : Option String := none
  current_step : Nat := 0
  estimated_time_sec : Int := 0
  step_times : List (String × ℚ) := []
  created_at : Int := 0
deriving DecidableEq, Repr

/-- Outcome of one call into an external capability: the call returns a
value, or raises an exception carrying a message. -/
inductive CapOutcome (α : Type) where
  | ok (val : α)
  | exn (msg : String)
deriving DecidableEq, Repr

/-- The success payload a stage worker returns: its data plus the measured
wall-clock elapsed seconds (the `'elapsed_sec'` dictionary entry). -/
structure WorkerOk (α : Type) where
  payload : α
  elapsed_sec : ℚ
deriving DecidableEq, Repr

/-- A stage worker's structured result: the `{'success': True, ...}` or
`{'success': False, 'error': ...}` dictionary of `tasks.py`. -/
inductive WorkerResult (α : Type) where
  | success (r : WorkerOk α)
  | failure (error : String)
deriving DecidableEq, Repr

/-- `_stt_worker` (`tasks.py` lines 62-89).  `process_audio` returns a pair
of optional strings (timestamped script, text-only script) or raises; the
worker raises-and-catches when either is `None`, and catches every
exception, returning a failure record. -/
def _stt_worker (out : CapOutcome (Option String × Option String)) (elapsed : ℚ) :
    WorkerResult (String × String) :=
  match out with
  | .exn m => .failure m
  | .ok (some ts, some txt) => .success ⟨(ts, txt), elapsed⟩
  | .ok _ => .failure "STT failed: audio could not be transcribed"

/-- `_pdf_worker` (`tasks.py` lines 91-119).  `process_pdf` returns the list
of `(page_num, content)` pairs; the worker raises-and-catches when the list
is empty (`if not pdf_texts`), and catches every exception. -/
def _pdf_worker (out : CapOutcome (List (Nat × String))) (elapsed : ℚ) :
    WorkerResult (List (Nat × String)) :=
  match out with
  | .exn m => .failure m
  | .ok texts => if texts.isEmpty then .failure "PDF parse failed: no pages"
      else .success ⟨texts, elapsed⟩

/-- `_summary_worker` (`tasks.py` lines 121-148).  `get_summary_from_gemini`
returns the summary JSON string or `None`; `None` becomes a failure. -/
def _summary_worker (out : CapOutcome (Option String)) (elapsed : ℚ) :
    WorkerResult String :=
  match out with
  | .exn m => .failure m
  | .ok none => .failure "summary failed: could not generate summary"
  | .ok (some j) => .success ⟨j, elapsed⟩

/-- `_embedding_worker` (`tasks.py` lines 150-174).  `embed_and_store`
returns nothing; any exception becomes a failure record. -/
def _embedding_worker (out : CapOutcome Unit) (elapsed : ℚ) :
    WorkerResult Unit :=
  match out with
  | .exn m => .failure m
  | .ok _ => .success ⟨(), elapsed⟩

/-- `mark_lecture_as_failed` (`tasks.py` lines 176-190): under
`select_for_update` the row is re-read and flipped to `failed` only when its
status is still `processing`; a terminal status is left untouched. -/
def mark_lecture_as_failed (s : Status) : Status :=
  if s = .processing then .failed else s

/-- One well-shaped (dict) item of the `summary_list` iterated by
`create_semantic_mappings` (`services.py` lines 446-449): `item.get`
yields `None` when a key is absent.  A truthy non-string value behaves
like a non-empty string there (only `not topic` and f-string formatting
touch it), so values are modelled as optional strings. -/
structure SummaryItem where
  topic : Option String
  summary : Option String
deriving DecidableEq, Repr

/-- One element of the `summary_list` iterable: either a dict, or a
non-dict value (a list element that is a string, a number, a list, …, as
when the model emitted `summary_list` as a list of strings, or when
`summary_list` is itself a string and iteration yields characters).  On a
non-dict element, `item.get("topic")` at `services.py` line 447 — outside
any try/except — raises `AttributeError` out of the function. -/
inductive SummaryListItem where
  | notADict (msg : String)
  | dict (item : SummaryItem)
deriving DecidableEq, Repr

/-- Result of `json.loads(summary_json)` as consumed by
`create_semantic_mappings` (`services.py` lines 440-446).
`parseError`: `json.loads` raised — caught by the try/except at lines
440-444, the function returns `[]`.
`notADict`: the document parsed but the top-level value is not a dict
(e.g. `summary_json = "[]"` or `"null"`, reachable because
`get_summary_from_gemini` round-trips any JSON without shape validation);
`summary_data.get("summary_list", [])` at line 446 — outside any
try/except — raises `AttributeError`.
`notIterable`: a dict whose `summary_list` value cannot be iterated
(e.g. a number); the `for` over it at line 446 raises `TypeError`,
equally uncaught.
`dict items`: a dict; the `summary_list` value (default `[]`) yields
`items`. -/
inductive ParsedSummary where
  | parseError (msg : String)
  | notADict (msg : String)
  | notIterable (msg : String)
  | dict (items : List SummaryListItem)
deriving DecidableEq, Repr

/-- Outcome of one per-topic embed-and-query round trip inside
`create_semantic_mappings` (`services.py` lines 454-465): a best match,
an empty result set (`results["ids"][0]` empty), or an exception. -/
inductive QueryOutcome where
  | found (page : Nat) (doc : String)
  | empty
  | exn (msg : String)
deriving DecidableEq, Repr

/-- One `Mapping` row (`models.py` lines 108-123). -/
structure MappingRow where
  lecture_id : Nat
  summary_topic : String
  mapped_pdf_page : Nat
  mapped_pdf_content : String
deriving DecidableEq, Repr

/-- Python truthiness test `not topic` on an optional string: true when the
value is absent or the empty string. -/
def pyFalsy : Option String → Bool
  | none => true
  | some s => s = ""

/-- The per-topic loop of `create_semantic_mappings` (`services.py` lines
446-481): a non-dict element makes `item.get` raise `AttributeError`
(line 447, uncaught, discarding the rows accumulated so far); dict items
with a falsy topic or summary are skipped (`continue`); a query exception
is logged and skipped; an empty result set appends nothing; a found match
appends one row.  The index argument numbers the items so that each can
have its own query outcome. -/
def mappingLoop (lecture_id : Nat) (query : Nat → QueryOutcome) :
    Nat → List SummaryListItem → Except String (List MappingRow)
  | _, [] => .ok []
  | _, .notADict m :: _ => .error m
  | i, .dict item :: rest =>
    if pyFalsy item.topic || pyFalsy item.summary then
      mappingLoop lecture_id query (i + 1) rest
    else
      match query i with
      | .found page doc =>
          (mappingLoop lecture_id query (i + 1) rest).map
            (fun tail =>
              { lecture_id := lecture_id, summary_topic := item.topic.getD "",
                mapped_pdf_page := page, mapped_pdf_content := doc } :: tail)
      | .empty => mappingLoop lecture_id query (i + 1) rest
      | .exn _ => mappingLoop lecture_id query (i + 1) rest

/-- `create_semantic_mappings` (`services.py` lines 429-484).
`loadCollection` is the outcome of `get_collection` (a failure is caught
at lines 434-438 and returns `[]`); a `json.loads` failure is caught at
lines 440-444 and returns `[]`; but a parsed top-level value that is not a
dict, a non-iterable `summary_list` value, or a non-dict `summary_list`
element raises out of the function (`.error`), because lines 446-448 are
outside every try/except.  Otherwise the per-topic loop runs. -/
def create_semantic_mappings (lecture_id : Nat)
    (loadCollection : CapOutcome Unit)
    (parsedSummary : ParsedSummary)
    (query : Nat → QueryOutcome) : Except String (List MappingRow) :=
  match loadCollection with
  | .exn _ => .ok []
  | .ok _ =>
    match parsedSummary with
    | .parseError _ => .ok []
    | .notADict m => .error m
    | .notIterable m => .error m
    | .dict items => mappingLoop lecture_id query 0 items

/-- Point at which an injected database exception interrupts the final
persist step of `process_lecture_task` (`tasks.py` lines 406-430):
either before the save that writes `status='completed'` (line 415), or
after that save but before the first `PdfChunk.objects.create`
(line 419). -/
inductive PersistFault where
  | beforeStatusWrite
  | afterStatusWrite
deriving DecidableEq, Repr

/-- The behaviour of the four external capabilities during one run of
`process_lecture_task`, together with the measured elapsed times. -/
structure CapBehavior where
  stt : CapOutcome (Option String × Option String)
  pdf : CapOutcome (List (Nat × String))
  summary : CapOutcome (Option String)
  embed : CapOutcome Unit
  stt_elapsed : ℚ := 0
  pdf_elapsed : ℚ := 0
  summary_elapsed : ℚ := 0
  embed_elapsed : ℚ := 0
  mapping_elapsed : ℚ := 0
  save_elapsed : ℚ := 0
deriving DecidableEq, Repr

/-- Observable result of one execution of `process_lecture_task`: the final
`Lecture` row, the `PdfChunk` rows inserted, the `Mapping` rows inserted,
whether the task re-raised, and the status the row held at the moment the
`except` block ran (`none` when no exception occurred). -/
structure RunResult where
  lecture : Lecture
  chunks : List (Nat × String)
  mappingRows : List MappingRow
  raised : Bool
  statusAtRaise : Option Status
deriving DecidableEq, Repr

/-- The `except` block of `process_lecture_task` (`tasks.py` lines
481-487): `mark_lecture_as_failed` is applied to the current row status and
the exception is re-raised (`raised = true`). -/
def raiseOut (lec : Lecture) (chunks : List (Nat × String))
    (rows : List MappingRow) : RunResult :=
  { lecture := { lec with status := mark_lecture_as_failed lec.status },
    chunks := chunks, mappingRows := rows,
    raised := true, statusAtRaise := some lec.status }

/-- `max_retries=0` on the `@shared_task` decorator of
`process_lecture_task` (`tasks.py` line 235): the task framework performs
no retry. -/
def process_lecture_task_max_retries : Nat := 0

/-- The sequential mapping + persist tail of `process_lecture_task`
(`tasks.py` lines 391-430).  `current_step` is set to 5 before the mapping
call (line 393); an exception raised out of `create_semantic_mappings`
(see its raise paths) therefore reaches the task's except block with the
row at step 5 and no `step_times` entry for the mapping step.  On a
returned mapping list, the elapsed time is recorded, `current_step` is set
to 6, the persist step writes transcript, summary and `status='completed'`
in one save and only afterwards inserts the `PdfChunk` and `Mapping`
rows; an injected `PersistFault` interrupts it at the corresponding
point. -/
def persist_phase (lec3 : Lecture) (full_script_ts summary_payload : String)
    (chunks : List (Nat × String)) (mapResult : Except String (List MappingRow))
    (mapping_elapsed save_elapsed : ℚ)
    (persistFault : Option PersistFault) : RunResult :=
  let lec5a := { lec3 with current_step := 5 }
  match mapResult with
  | .error _ => raiseOut lec5a [] []
  | .ok rows =>
    let lec5 := { lec5a with step_times := lec5a.step_times ++ [("5", mapping_elapsed)] }
    let lec6 := { lec5 with current_step := 6 }
    match persistFault with
    | some .beforeStatusWrite => raiseOut lec6 [] []
    | some .afterStatusWrite =>
        let lecC := { lec6 with full_script := some full_script_ts, summary_json := some summary_payload, status := .completed }
        raiseOut lecC [] []
    | none =>
        let lecC := { lec6 with full_script := some full_script_ts, summary_json := some summary_payload, status := .completed }
        let lecF := { lecC with step_times := lecC.step_times ++ [("6", save_elapsed)] }
        { lecture := lecF, chunks := chunks, mappingRows := rows,
          raised := false, statusAtRaise := none }

/-- `process_lecture_task` (`tasks.py` lines 235-487).  Tier 1 runs the STT
and PDF workers, recording a `step_times` entry for each success before the
validation raises on a failure; tier 2 does the same for the summary and
embedding workers; then the sequential mapping + persist tail
(`persist_phase`) runs: the mapping stage either returns a row list or
raises (non-dict parsed summary, non-iterable or ill-shaped
`summary_list`), and the persist step can be interrupted by an injected
`PersistFault`.  The arrival order inside a tier is not modelled:
`step_times` entries are recorded in step order.  The statistics update
that follows (`tasks.py` lines 440-479) is swallowed on failure and never
changes the `Lecture` row; it is modelled separately by
`process_stats_step`. -/
def process_lecture_task (lec0 : Lecture) (beh : CapBehavior)
    (mapLoad : CapOutcome Unit) (mapParsed : ParsedSummary)
    (mapQuery : Nat → QueryOutcome)
    (persistFault : Option PersistFault) : RunResult :=
  if lec0.hasAudio = false then raiseOut lec0 [] []
  else
    let sttR := _stt_worker beh.stt beh.stt_elapsed
    let pdfR := _pdf_worker beh.pdf beh.pdf_elapsed
    let st1 :=
      (match sttR with | .success r => [("1", r.elapsed_sec)] | .failure _ => []) ++
      (match pdfR with | .success r => [("2", r.elapsed_sec)] | .failure _ => [])
    let lec1 := { lec0 with current_step := 1, step_times := lec0.step_times ++ st1 }
    match sttR with
    | .failure _ => raiseOut lec1 [] []
    | .success sttOk =>
      match pdfR with
      | .failure _ => raiseOut lec1 [] []
      | .success pdfOk =>
        let sumR := _summary_worker beh.summary beh.summary_elapsed
        let embR := _embedding_worker beh.embed beh.embed_elapsed
        let st2 :=
          (match sumR with | .success r => [("3", r.elapsed_sec)] | .failure _ => []) ++
          (match embR with | .success r => [("4", r.elapsed_sec)] | .failure _ => [])
        let lec3 := { lec1 with current_step := 3, step_times := lec1.step_times ++ st2 }
        match sumR with
        | .failure _ => raiseOut lec3 [] []
        | .success sumOk =>
          match embR with
          | .failure _ => raiseOut lec3 [] []
          | .success _ =>
            persist_phase lec3 sttOk.payload.1 sumOk.payload pdfOk.payload
              (create_semantic_mappings lec0.id mapLoad mapParsed mapQuery)
              beh.mapping_elapsed beh.save_elapsed persistFault

/-- The ChromaDB client state: the names of the existing collections.
Chroma keeps collection names unique, but no such invariant is assumed
here. -/
structure VectorStore where
  collections : List String
deriving DecidableEq, Repr

/-- `get_collection(name)`: truthy when the collection exists (it raises
otherwise, which `embed_and_store` catches and ignores). -/
def get_collection (vs : VectorStore) (name : String) : Bool :=
  name ∈ vs.collections

/-- `delete_collection(name)`: removes the named collection. -/
def delete_collection (vs : VectorStore) (name : String) : VectorStore :=
  { collections := vs.collections.filter (fun c => ¬ c = name) }

/-- `get_or_create_collection(name)`: creates the collection when absent. -/
def get_or_create_collection (vs : VectorStore) (name : String) : VectorStore :=
  if name ∈ vs.collections then vs else { collections := name :: vs.collections }

/-- The collection name `embed_and_store` uses for a job
(`services.py` line 372). -/
def lectureCollectionName (lecture_id : Nat) : String :=
  "lecture_" ++ toString lecture_id

/-- The vector-store effect of `embed_and_store` (`services.py` lines
370-380): delete the job's collection if it exists (the try/except around
`get_collection`/`delete_collection`), then `get_or_create` it.  The
subsequent `add` calls populate the same collection and create no other. -/
def embed_and_store (lecture_id : Nat) (vs : VectorStore) : VectorStore :=
  let name := lectureCollectionName lecture_id
  let vs1 := if get_collection vs name then delete_collection vs name else vs
  get_or_create_collection vs1 name

/-- Outcome of processing one PDF page inside
`process_single_page_with_ollama`: the combined text-and-image content, or
an exception raised by the page processing. -/
inductive PageOutcome where
  | ok (content : String)
  | exn (msg : String)
deriving DecidableEq, Repr

/-- `process_single_page_with_ollama` (`services.py` lines 187-240): returns
`(page_num + 1, content)`; its own try/except turns any exception into
`(page_num + 1, "")`.  The future-level except in `process_pdf` (lines
289-292) appends the same pair, so one function covers both. -/
def process_single_page_with_ollama (page_num : Nat) (outcome : PageOutcome) :
    Nat × String :=
  match outcome with
  | .ok content => (page_num + 1, content)
  | .exn _ => (page_num + 1, "")

/-- Comparison key used by `pdf_texts.sort(key=lambda x: x[0])`
(`services.py` line 297). -/
def pageLE (a b : Nat × String) : Prop := a.1 ≤ b.1

instance : DecidableRel pageLE := fun a b => Nat.decLe a.1 b.1

instance : IsTotal (Nat × String) pageLE :=
  ⟨fun a b => Nat.le_total a.1 b.1⟩

instance : IsTrans (Nat × String) pageLE :=
  ⟨fun _ _ _ h1 h2 => Nat.le_trans h1 h2⟩

/-- Strict version of the page-number order; antisymmetric because two
pairs cannot each have the strictly smaller key. -/
def pageLT (a b : Nat × String) : Prop := a.1 < b.1

instance : IsAntisymm (Nat × String) pageLT :=
  ⟨fun _ _ h1 h2 => absurd h2 (Nat.lt_asymm h1)⟩

/-- `process_pdf` (`services.py` lines 253-318) on a readable document with
`order.length` pages.  `oc i` is the outcome of page `i` (0-based);
`order` is the order in which `as_completed` delivers the page futures
across the batches — any permutation of the page indices.  Every result,
including an empty string, is appended (line 288), and the list is then
sorted by page number (line 297). -/
def process_pdf (oc : Nat → PageOutcome) (order : List Nat) :
    List (Nat × String) :=
  List.insertionSort pageLE
    (order.map (fun i => process_single_page_with_ollama i (oc i)))

/-- The canonical output of `process_pdf`: page `i` contributes
`(i + 1, content)` and the list is in page order. -/
def canonical_pdf (n : Nat) (oc : Nat → PageOutcome) : List (Nat × String) :=
  (List.range n).map (fun i => process_single_page_with_ollama i (oc i))

/-- The `ProcessingStats` model (`models.py` lines 125-188): the four
declared float columns.  No column named `pdf_processing_avg_sec_per_page`
or `summary_avg_sec` exists. -/
structure ProcessingStats where
  audio_stt_avg_sec_per_min : ℚ := 2.0
  pdf_parsing_avg_sec_per_page : ℚ := 1.6
  embedding_avg_sec_per_page : ℚ := 0.07
  summary_avg_sec_per_min : ℚ := 1.0
deriving DecidableEq, Repr

/-- Attribute read on a `ProcessingStats` instance: only the four declared
fields resolve; any other name raises `AttributeError` (the model declares
no such field, defines no property, and nothing in the repository adds
one dynamically). -/
def ProcessingStats.getattr (s : ProcessingStats) (name : String) :
    Except String ℚ :=
  if name = "audio_stt_avg_sec_per_min" then .ok s.audio_stt_avg_sec_per_min
  else if name = "pdf_parsing_avg_sec_per_page" then .ok s.pdf_parsing_avg_sec_per_page
  else if name = "embedding_avg_sec_per_page" then .ok s.embedding_avg_sec_per_page
  else if name = "summary_avg_sec_per_min" then .ok s.summary_avg_sec_per_min
  else .error ("AttributeError: " ++ name)

/-- The statistics-update block of `process_lecture_task` (`tasks.py` lines
440-472), up to and including the point where it raises.  The three
existing averages are reassigned in memory (lines 445-460); line 466 then
reads `stats.pdf_processing_avg_sec_per_page` and line 470 reads
`stats.summary_avg_sec`, neither of which exists, so the block raises
`AttributeError` before reaching `stats.save()` on line 472.  The `.ok`
continuations after a successful read are unreachable, because `getattr`
of those names always errors. -/
def update_processing_stats (stats : ProcessingStats)
    (audio_duration_min : ℚ) (pdf_page_count : Nat)
    (stt_elapsed pdf_parse_elapsed embed_elapsed : ℚ) :
    Except String ProcessingStats :=
  let s1 := if 0 < audio_duration_min then
      { stats with audio_stt_avg_sec_per_min :=
          stats.audio_stt_avg_sec_per_min * 0.5 + (stt_elapsed / audio_duration_min) * 0.5 }
    else stats
  let s2 := if 0 < pdf_page_count then
      { s1 with pdf_parsing_avg_sec_per_page :=
          s1.pdf_parsing_avg_sec_per_page * 0.5 + (pdf_parse_elapsed / pdf_page_count) * 0.5 }
    else s1
  let s3 := if 0 < pdf_page_count then
      { s2 with embedding_avg_sec_per_page :=
          s2.embedding_avg_sec_per_page * 0.5 + (embed_elapsed / pdf_page_count) * 0.5 }
    else s2
  if 0 < pdf_page_count then
    match ProcessingStats.getattr s3 "pdf_processing_avg_sec_per_page" with
    | .error e => .error e
    | .ok _ =>
      match ProcessingStats.getattr s3 "summary_avg_sec" with
      | .error e => .error e
      | .ok _ => .ok s3
  else
    match ProcessingStats.getattr s3 "summary_avg_sec" with
    | .error e => .error e
    | .ok _ => .ok s3

/-- The whole step 7 of `process_lecture_task` (`tasks.py` lines 440-479):
the update block runs inside try/except; on an exception the error is
printed and swallowed and `stats.save()` is never reached, so the stored
row is returned unchanged. -/
def process_stats_step (stored : ProcessingStats)
    (audio_duration_min : ℚ) (pdf_page_count : Nat)
    (stt_elapsed pdf_parse_elapsed embed_elapsed : ℚ) : ProcessingStats :=
  match update_processing_stats stored audio_duration_min pdf_page_count
      stt_elapsed pdf_parse_elapsed embed_elapsed with
  | .ok s => s
  | .error _ => stored

/-- Python `int()` truncation toward zero on a rational. -/
def py_int (q : ℚ) : Int := Int.tdiv q.num q.den

/-- The body of the try block of `calculate_etr_task` (`tasks.py` lines
521-550) as a fallible computation over attribute reads.  Line 531 reads
`stats.summary_avg_sec` and line 537 reads
`stats.pdf_processing_avg_sec_per_page`; neither attribute exists. -/
def calculate_etr_core (stats : ProcessingStats)
    (audio_duration_min : ℚ) (pdf_page_count : Nat) : Except String ℚ := do
  let sttPerMin ← ProcessingStats.getattr stats "audio_stt_avg_sec_per_min"
  let parsePerPage ← ProcessingStats.getattr stats "pdf_parsing_avg_sec_per_page"
  let group1 := max (audio_duration_min * sttPerMin) (pdf_page_count * parsePerPage)
  let summaryAvg ← ProcessingStats.getattr stats "summary_avg_sec"
  let embedPerPage ← ProcessingStats.getattr stats "embedding_avg_sec_per_page"
  let group2 := max summaryAvg (pdf_page_count * embedPerPage)
  let combined ← ProcessingStats.getattr stats "pdf_processing_avg_sec_per_page"
  let mappingPerPage := max 0 (combined - parsePerPage - embedPerPage)
  let sequential := pdf_page_count * mappingPerPage + 5
  pure (group1 + group2 + sequential)

/-- `calculate_etr_task` (`tasks.py` lines 489-565): on success the total is
truncated with `int()` and stored in `estimated_time_sec`; on any exception
the except block (lines 558-565) stores 0.  The returned integer is the
value written to the `Lecture` row. -/
def calculate_etr_task (stats : ProcessingStats)
    (audio_duration_min : ℚ) (pdf_page_count : Nat) : Int :=
  match calculate_etr_core stats audio_duration_min pdf_page_count with
  | .ok v => py_int v
  | .error _ => 0

/-- Modelled from the spec (section 4.1 ETA formula and claim C5): the
estimate the claim says is stored.  The five per-unit figures are
parameters because two of them (`summarizeSecFixed` as an absolute figure
and `combinedPdfSecPerPage`) have no column in the `ProcessingStats`
model. -/
def etr_formula_spec (sttPerMin parsePerPage embedPerPage summarizeFixed
    combinedPerPage : ℚ) (audioMin : ℚ) (pageCount : Nat) : ℚ :=
  max (audioMin * sttPerMin) (pageCount * parsePerPage) +
    max summarizeFixed (pageCount * embedPerPage) +
    pageCount * max 0 (combinedPerPage - parsePerPage - embedPerPage) + 5

/-- The stuck predicate of `check_and_mark_stuck_tasks` (`tasks.py` lines
203-209): status `processing` and created before `now` minus the threshold
(in minutes). -/
def is_stuck (now minutes : Int) (l : Lecture) : Bool :=
  l.status = .processing && l.created_at < now - minutes

/-- One ORM `save()` of a full row object: every row with the same id is
overwritten by the in-memory object. -/
def save_row (db : List Lecture) (row : Lecture) : List Lecture :=
  db.map (fun l => if l.id = row.id then row else l)

/-- The per-lecture loop of `check_and_mark_stuck_tasks` (`tasks.py` lines
217-224) over the snapshot list: in dry-run nothing is written; otherwise
each snapshot object gets `status='failed'` and is saved — with no
`select_for_update` and no re-check of the current status — and
`updated_count` is incremented.  The database is threaded through so that
the write targets the rows as they are at write time. -/
def reaper_fold (dry_run : Bool) : List Lecture → List Lecture → List Lecture × Nat
  | db, [] => (db, 0)
  | db, snap :: rest =>
    if dry_run then reaper_fold dry_run db rest
    else
      let db1 := save_row db { snap with status := .failed }
      let (dbf, u) := reaper_fold dry_run db1 rest
      (dbf, u + 1)

/-- `check_and_mark_stuck_tasks` (`tasks.py` lines 192-233): filter the
stuck lectures, count them, run the loop, and return
`(count found, count updated)` together with the resulting database. -/
def check_and_mark_stuck_tasks (db : List Lecture) (now minutes : Int)
    (dry_run : Bool) : List Lecture × Nat × Nat :=
  let stuck := db.filter (is_stuck now minutes)
  let count := stuck.length
  let (db2, updated) := reaper_fold dry_run db stuck
  (db2, count, updated)

/-! Helper lemmas. -/

/-- Reading the undeclared attribute `pdf_processing_avg_sec_per_page`
always raises. -/
lemma getattr_missing_combined (s : ProcessingStats) :
    ProcessingStats.getattr s "pdf_processing_avg_sec_per_page" =
      .error "AttributeError: pdf_processing_avg_sec_per_page" := rfl

/-- Reading the undeclared attribute `summary_avg_sec` always raises. -/
lemma getattr_missing_summary (s : ProcessingStats) :
    ProcessingStats.getattr s "summary_avg_sec" =
      .error "AttributeError: summary_avg_sec" := rfl

/-- In dry-run mode the reaper loop writes nothing and counts nothing. -/
lemma reaper_fold_dry (db stuck : List Lecture) :
    reaper_fold true db stuck = (db, 0) := by
  induction stuck with
  | nil => rfl
  | cons s rest ih => simpa [reaper_fold] using ih

/-- A pdf worker success carries a non-empty page list. -/
lemma pdf_worker_success_ne_nil {out : CapOutcome (List (Nat × String))}
    {e : ℚ} {r : WorkerOk (List (Nat × String))}
    (h : _pdf_worker out e = .success r) : r.payload ≠ [] := by
  cases out with
  | exn m => simp [_pdf_worker] at h
  | ok texts =>
    cases texts with
    | nil => simp [_pdf_worker] at h
    | cons a l =>
      simp [_pdf_worker] at h
      rw [← h]
      simp

/-- One run of `embed_and_store` leaves the store with the job's collection
in front of a list that does not contain it. -/
lemma embed_and_store_shape (lecture_id : Nat) (vs : VectorStore) :
    ∃ l, embed_and_store lecture_id vs =
        ⟨lectureCollectionName lecture_id :: l⟩ ∧
      lectureCollectionName lecture_id ∉ l := by
  unfold embed_and_store get_or_create_collection get_collection delete_collection
  by_cases h : lectureCollectionName lecture_id ∈ vs.collections
  · refine ⟨vs.collections.filter (fun c => ¬ c = lectureCollectionName lecture_id), ?_, ?_⟩
    · simp [h]
    · simp
  · exact ⟨vs.collections, by simp [h], h⟩

/-- Exhaustive description of `persist_phase` outcomes: a mapping-stage
exception or a persist fault before the completed-write raises with the
row status unchanged; a fault after it raises with the row already
completed and its outputs set; otherwise the phase finishes cleanly. -/
lemma persist_phase_shape (lec3 : Lecture) (fs sj : String)
    (chunks : List (Nat × String)) (mr : Except String (List MappingRow))
    (me se : ℚ) (pf : Option PersistFault) (hch : chunks ≠ []) :
    (∃ lec c rows, persist_phase lec3 fs sj chunks mr me se pf = raiseOut lec c rows ∧
        (lec.status = lec3.status ∨
         (lec.status = .completed ∧ pf = some .afterStatusWrite ∧
          lec.full_script.isSome ∧ lec.summary_json.isSome ∧ lec.current_step = 6))) ∨
    ((persist_phase lec3 fs sj chunks mr me se pf).raised = false ∧
     (persist_phase lec3 fs sj chunks mr me se pf).statusAtRaise = none ∧
     (persist_phase lec3 fs sj chunks mr me se pf).lecture.status = .completed ∧
     (persist_phase lec3 fs sj chunks mr me se pf).lecture.full_script.isSome ∧
     (persist_phase lec3 fs sj chunks mr me se pf).lecture.summary_json.isSome ∧
     (persist_phase lec3 fs sj chunks mr me se pf).lecture.current_step = 6 ∧
     pf = none ∧
     (persist_phase lec3 fs sj chunks mr me se pf).chunks ≠ []) := by
  cases mr with
  | error m => exact Or.inl ⟨_, _, _, rfl, Or.inl rfl⟩
  | ok rows =>
    cases pf with
    | none => exact Or.inr ⟨rfl, rfl, rfl, rfl, rfl, rfl, rfl, hch⟩
    | some fp =>
      cases fp with
      | beforeStatusWrite => exact Or.inl ⟨_, _, _, rfl, Or.inl rfl⟩
      | afterStatusWrite => exact Or.inl ⟨_, _, _, rfl, Or.inr ⟨rfl, rfl, rfl, rfl, rfl⟩⟩

/-- Exhaustive description of the observable outcomes of
`process_lecture_task`: either the task raised, in which case the result is
`raiseOut` of a row whose status is the initial one (every failure before
the completed-write, the mapping-stage raise included) or of a row already
completed with its output fields set (a persist fault after the
completed-write); or it finished cleanly, in which case the row is
completed with both outputs, `current_step = 6`, no fault was injected,
and the inserted chunk list is non-empty. -/
lemma run_shape (lec0 : Lecture) (beh : CapBehavior) (mL : CapOutcome Unit)
    (mP : ParsedSummary) (mQ : Nat → QueryOutcome)
    (pf : Option PersistFault) :
    (∃ lec c rows, process_lecture_task lec0 beh mL mP mQ pf = raiseOut lec c rows ∧
        (lec.status = lec0.status ∨
         (lec.status = .completed ∧ pf = some .afterStatusWrite ∧
          lec.full_script.isSome ∧ lec.summary_json.isSome ∧ lec.current_step = 6))) ∨
    ((process_lecture_task lec0 beh mL mP mQ pf).raised = false ∧
     (process_lecture_task lec0 beh mL mP mQ pf).statusAtRaise = none ∧
     (process_lecture_task lec0 beh mL mP mQ pf).lecture.status = .completed ∧
     (process_lecture_task lec0 beh mL mP mQ pf).lecture.full_script.isSome ∧
     (process_lecture_task lec0 beh mL mP mQ pf).lecture.summary_json.isSome ∧
     (process_lecture_task lec0 beh mL mP mQ pf).lecture.current_step = 6 ∧
     pf = none ∧
     (process_lecture_task lec0 beh mL mP mQ pf).chunks ≠ []) := by
  obtain ⟨id0, st0, hAud, fs0, sj0, cs0, est0, times0, ca0⟩ := lec0
  obtain ⟨stt, pdf, summary, embed, e1, e2, e3, e4, e5, e6⟩ := beh
  cases hAud with
  | false => exact Or.inl ⟨_, _, _, rfl, Or.inl rfl⟩
  | true =>
    cases stt with
    | exn m => exact Or.inl ⟨_, _, _, rfl, Or.inl rfl⟩
    | ok p =>
      obtain ⟨a, b⟩ := p
      cases a with
      | none => exact Or.inl ⟨_, _, _, rfl, Or.inl rfl⟩
      | some ts =>
        cases b with
        | none => exact Or.inl ⟨_, _, _, rfl, Or.inl rfl⟩
        | some txt =>
          cases pdf with
          | exn m2 => exact Or.inl ⟨_, _, _, rfl, Or.inl rfl⟩
          | ok texts =>
            cases texts with
            | nil => exact Or.inl ⟨_, _, _, rfl, Or.inl rfl⟩
            | cons t0 trest =>
              cases summary with
              | exn m3 => exact Or.inl ⟨_, _, _, rfl, Or.inl rfl⟩
              | ok so =>
                cases so with
                | none => exact Or.inl ⟨_, _, _, rfl, Or.inl rfl⟩
                | some j =>
                  cases embed with
                  | exn m4 => exact Or.inl ⟨_, _, _, rfl, Or.inl rfl⟩
                  | ok u =>
                      exact persist_phase_shape _ _ _ _ _ _ _ _
                        (List.cons_ne_nil t0 trest)

/-- The page number of a processed page is `page_num + 1` in every case. -/
lemma fst_process_single (page_num : Nat) (o : PageOutcome) :
    (process_single_page_with_ollama page_num o).1 = page_num + 1 := by
  cases o <;> rfl

/-- A list sorted under the weak key order whose keys are distinct is sorted
under the strict key order. -/
lemma sorted_pageLT_of_le_nodup {l : List (Nat × String)}
    (hs : List.Sorted pageLE l) (hn : (l.map Prod.fst).Nodup) :
    List.Sorted pageLT l := by
  have hn2 : l.Pairwise (fun a b : Nat × String => a.1 ≠ b.1) :=
    (List.pairwise_map).mp hn
  exact (hs.and hn2).imp (fun h => Nat.lt_of_le_of_ne h.1 h.2)

lemma canonical_pdf_sorted (n : Nat) (oc : Nat → PageOutcome) :
    List.Sorted pageLT (canonical_pdf n oc) := by
  refine (List.pairwise_map).mpr ?_
  refine (List.pairwise_lt_range n).imp ?_
  intro a b h
  show (process_single_page_with_ollama a (oc a)).1 <
    (process_single_page_with_ollama b (oc b)).1
  rw [fst_process_single, fst_process_single]
  exact Nat.succ_lt_succ h

lemma canonical_pdf_keys (n : Nat) (oc : Nat → PageOutcome) :
    (canonical_pdf n oc).map Prod.fst = (List.range n).map (fun i => i + 1) := by
  unfold canonical_pdf
  rw [List.map_map]
  exact List.map_congr_left (fun i _ => fst_process_single i (oc i))

/-- On any arrival order that is a permutation of the page indices,
`process_pdf` produces exactly the canonical page list. -/
lemma process_pdf_eq_canonical (n : Nat) (oc : Nat → PageOutcome)
    (order : List Nat) (hperm : order.Perm (List.range n)) :
    process_pdf oc order = canonical_pdf n oc := by
  have hperm2 : (process_pdf oc order).Perm (canonical_pdf n oc) := by
    refine List.Perm.trans (List.perm_insertionSort pageLE _) ?_
    exact hperm.map (fun i => process_single_page_with_ollama i (oc i))
  have hkeysnodup : ((process_pdf oc order).map Prod.fst).Nodup := by
    refine ((hperm2.map Prod.fst).nodup_iff).mpr ?_
    rw [canonical_pdf_keys]
    exact (List.nodup_range n).map (fun a b h => Nat.succ_injective h)
  have hsorted : List.Sorted pageLT (process_pdf oc order) :=
    sorted_pageLT_of_le_nodup (List.sorted_insertionSort pageLE _) hkeysnodup
  exact List.eq_of_perm_of_sorted hperm2 hsorted (canonical_pdf_sorted n oc)

/-- When every per-topic query raises and every `summary_list` element is
a dict, the mapping loop collects nothing and raises nothing. -/
lemma mappingLoop_all_exn (lid : Nat) (q : Nat → QueryOutcome)
    (hq : ∀ i, ∃ m, q i = QueryOutcome.exn m) :
    ∀ i (items : List SummaryItem),
      mappingLoop lid q i (items.map SummaryListItem.dict) = .ok [] := by
  intro i items
  induction items generalizing i with
  | nil => rfl
  | cons item rest ih =>
    obtain ⟨m, hm⟩ := hq i
    cases hf : (pyFalsy item.topic || pyFalsy item.summary) with
    | true => simp [mappingLoop, hf, ih]
    | false => simp [mappingLoop, hf, hm, ih]

/-! Claim theorems. -/

/-- C4: the claim says every per-unit moving average in the
`ProcessingStats` singleton is durably updated to `0.5 * old + 0.5 *
observed` after every successfully completed job.  In fact the update block
reads the undeclared attributes `pdf_processing_avg_sec_per_page` and
`summary_avg_sec`, raises `AttributeError` before `stats.save()`, and the
exception is swallowed: for every input the stored singleton is returned
unchanged, so no average is ever durably updated. -/
theorem C4_stats_update_never_persisted (stored : ProcessingStats)
    (audio_duration_min : ℚ) (pdf_page_count : Nat)
    (stt_elapsed pdf_parse_elapsed embed_elapsed : ℚ) :
    process_stats_step stored audio_duration_min pdf_page_count stt_elapsed
      pdf_parse_elapsed embed_elapsed = stored := by
  unfold process_stats_step update_processing_stats
  by_cases hp : 0 < pdf_page_count <;> by_cases ha : 0 < audio_duration_min <;>
    simp [hp, ha, getattr_missing_combined, getattr_missing_summary]

/-- C5: the claim says the stored ETA equals the two-tier maximum formula
computed from the `ProcessingStats` averages.  In fact `calculate_etr_task`
reads the undeclared attributes `summary_avg_sec` and
`pdf_processing_avg_sec_per_page`, raises `AttributeError`, and its except
block stores 0: the stored ETA is 0 for every job, whereas the claimed
formula (instantiated at the documented default averages, 12 minutes of
audio and 10 pages, with a combined figure of 1.67) yields 30 seconds. -/
theorem C5_eta_always_zero :
    (∀ (stats : ProcessingStats) (audio_duration_min : ℚ) (pdf_page_count : Nat),
        calculate_etr_task stats audio_duration_min pdf_page_count = 0) ∧
    etr_formula_spec 2 1.6 0.07 1 1.67 12 10 = 30 := by
  constructor
  · intro stats am pg
    rfl
  · norm_num [etr_formula_spec]

/-- C6: each stage worker maps every behaviour of its external capability —
any returned value and any raised exception — to a structured result:
either a success record carrying its payload and the measured elapsed
seconds, or a failure record carrying the error reason; in particular the
STT worker fails when either transcript component is null, and the PDF
worker fails when zero pages are produced.  The workers are total
functions of the capability outcome, so no exception crosses their
boundary. -/
theorem C6_workers_return_structured_results :
    (∀ (o : CapOutcome (Option String × Option String)) (e : ℚ),
        (∃ p, _stt_worker o e = .success ⟨p, e⟩) ∨ (∃ m, _stt_worker o e = .failure m)) ∧
    (∀ (o : CapOutcome (List (Nat × String))) (e : ℚ),
        (∃ p, _pdf_worker o e = .success ⟨p, e⟩) ∨ (∃ m, _pdf_worker o e = .failure m)) ∧
    (∀ (o : CapOutcome (Option String)) (e : ℚ),
        (∃ p, _summary_worker o e = .success ⟨p, e⟩) ∨ (∃ m, _summary_worker o e = .failure m)) ∧
    (∀ (o : CapOutcome Unit) (e : ℚ),
        (∃ p, _embedding_worker o e = .success ⟨p, e⟩) ∨ (∃ m, _embedding_worker o e = .failure m)) ∧
    (∀ (b : Option String) (e : ℚ), ∃ m, _stt_worker (.ok (none, b)) e = .failure m) ∧
    (∀ (a : Option String) (e : ℚ), ∃ m, _stt_worker (.ok (a, none)) e = .failure m) ∧
    (∀ e : ℚ, ∃ m, _pdf_worker (.ok []) e = .failure m) := by
  refine ⟨?_, ?_, ?_, ?_, ?_, ?_, ?_⟩
  · intro o e
    cases o with
    | exn m => exact Or.inr ⟨m, rfl⟩
    | ok p =>
      obtain ⟨a, b⟩ := p
      cases a with
      | none => exact Or.inr ⟨_, rfl⟩
      | some ts =>
        cases b with
        | none => exact Or.inr ⟨_, rfl⟩
        | some txt => exact Or.inl ⟨(ts, txt), rfl⟩
  · intro o e
    cases o with
    | exn m => exact Or.inr ⟨m, rfl⟩
    | ok texts =>
      cases texts with
      | nil => exact Or.inr ⟨_, rfl⟩
      | cons h t => exact Or.inl ⟨h :: t, rfl⟩
  · intro o e
    cases o with
    | exn m => exact Or.inr ⟨m, rfl⟩
    | ok so =>
      cases so with
      | none => exact Or.inr ⟨_, rfl⟩
      | some j => exact Or.inl ⟨j, rfl⟩
  · intro o e
    cases o with
    | exn m => exact Or.inr ⟨m, rfl⟩
    | ok u => exact Or.inl ⟨u, rfl⟩
  · intro b e
    cases b with
    | none => exact ⟨_, rfl⟩
    | some s => exact ⟨_, rfl⟩
  · intro a e
    cases a with
    | none => exact ⟨_, rfl⟩
    | some s => exact ⟨_, rfl⟩
  · intro e
    exact ⟨_, rfl⟩

/-- C7: `embed_and_store` deletes the job's vector collection when it
pre-exists and re-creates it, so after running it twice for the same job
id the store holds exactly one collection with that job's name, and the
second run leaves the store exactly as the first did (idempotence). -/
theorem C7_embed_and_store_idempotent (vs : VectorStore) (lecture_id : Nat) :
    (embed_and_store lecture_id (embed_and_store lecture_id vs)).collections.count
        (lectureCollectionName lecture_id) = 1 ∧
    embed_and_store lecture_id (embed_and_store lecture_id vs) =
      embed_and_store lecture_id vs := by
  obtain ⟨l, h1, hnot⟩ := embed_and_store_shape lecture_id vs
  constructor
  · obtain ⟨l2, h2, hnot2⟩ := embed_and_store_shape lecture_id (embed_and_store lecture_id vs)
    rw [h2]
    simp [List.count_cons_self, List.count_eq_zero_of_not_mem hnot2]
  · rw [h1]
    have hl : l.filter (fun c => ¬ c = lectureCollectionName lecture_id) = l := by
      refine List.filter_eq_self.mpr ?_
      intro c hc
      have hne : c ≠ lectureCollectionName lecture_id := fun h => hnot (h ▸ hc)
      simp [hne]
    unfold embed_and_store get_or_create_collection get_collection delete_collection
    simp [hnot, List.filter_cons, hl]
    intro a ha h
    exact hnot (h ▸ ha)

/-- C8: a dry-run sweep of the stuck-job reaper returns the pair (number of
stuck jobs found, 0) and leaves every row of the database — stuck or not —
unchanged. -/
theorem C8_dry_run_reports_without_writing (db : List Lecture) (now minutes : Int) :
    check_and_mark_stuck_tasks db now minutes true =
      (db, (db.filter (is_stuck now minutes)).length, 0) := by
  simp [check_and_mark_stuck_tasks, reaper_fold_dry]

/-- C1 counterexample: the claim — `status = completed` implies, among the
rest, at least one `PdfChunk` row — fails as stated.  The persist step
writes `status = completed` (with transcript and summary) in one save and
only afterwards inserts the chunk rows, so a database exception between
the two (here: a fault on the first chunk insert, with a one-page PDF)
leaves a completed lecture with zero `PdfChunk` rows; the except handler
does not touch the already-completed status and the task re-raises. -/
theorem C1_counterexample :
    ((process_lecture_task { id := 1, status := Status.processing }
        { stt := .ok (some "ts", some "t"), pdf := .ok [(1, "page")],
          summary := .ok (some "sj"), embed := .ok () }
        (.ok ()) (ParsedSummary.dict []) (fun _ => QueryOutcome.empty)
        (some PersistFault.afterStatusWrite)).lecture.status = Status.completed) ∧
    ((process_lecture_task { id := 1, status := Status.processing }
        { stt := .ok (some "ts", some "t"), pdf := .ok [(1, "page")],
          summary := .ok (some "sj"), embed := .ok () }
        (.ok ()) (ParsedSummary.dict []) (fun _ => QueryOutcome.empty)
        (some PersistFault.afterStatusWrite)).chunks = []) ∧
    ((process_lecture_task { id := 1, status := Status.processing }
        { stt := .ok (some "ts", some "t"), pdf := .ok [(1, "page")],
          summary := .ok (some "sj"), embed := .ok () }
        (.ok ()) (ParsedSummary.dict []) (fun _ => QueryOutcome.empty)
        (some PersistFault.afterStatusWrite)).raised = true) :=
  ⟨rfl, rfl, rfl⟩

/-- C1 (amended): for a job that starts in `processing`, a final
`status = completed` implies the transcript and the structured summary are
non-null and `current_step` is at the terminal value 6; and provided the
persist step ran without a database exception, at least one `PdfChunk` row
exists (the PDF being non-empty is enforced by the PDF worker, which fails
on zero pages). -/
theorem C1_completed_invariant (lec0 : Lecture) (beh : CapBehavior)
    (mapLoad : CapOutcome Unit) (mapParsed : ParsedSummary)
    (mapQuery : Nat → QueryOutcome) (pf : Option PersistFault)
    (h0 : lec0.status = Status.processing)
    (hc : (process_lecture_task lec0 beh mapLoad mapParsed mapQuery pf).lecture.status =
      Status.completed) :
    (process_lecture_task lec0 beh mapLoad mapParsed mapQuery pf).lecture.full_script.isSome ∧
    (process_lecture_task lec0 beh mapLoad mapParsed mapQuery pf).lecture.summary_json.isSome ∧
    (process_lecture_task lec0 beh mapLoad mapParsed mapQuery pf).lecture.current_step = 6 ∧
    (pf = none → (process_lecture_task lec0 beh mapLoad mapParsed mapQuery pf).chunks ≠ []) := by
  rcases run_shape lec0 beh mapLoad mapParsed mapQuery pf with ⟨lec, c, rows, heq, hcase⟩ | hs
  · rw [heq] at hc ⊢
    rcases hcase with hst | ⟨hst, hpf, hfs, hsj, hcs⟩
    · exfalso
      simp only [raiseOut] at hc
      rw [hst, h0] at hc
      simp [mark_lecture_as_failed] at hc
    · simp only [raiseOut]
      refine ⟨hfs, hsj, hcs, ?_⟩
      intro hnone
      rw [hnone] at hpf
      exact absurd hpf (by simp)
  · exact ⟨hs.2.2.2.1, hs.2.2.2.2.1, hs.2.2.2.2.2.1, fun _ => hs.2.2.2.2.2.2.2⟩

/-- C1 witness: a concrete fault-free successful run satisfying both
hypotheses of the amended invariant. -/
theorem C1_completed_invariant_witness :
    (process_lecture_task { id := 3, status := Status.processing }
        { stt := .ok (some "ts", some "t"), pdf := .ok [(1, "page")],
          summary := .ok (some "sj"), embed := .ok () }
        (.ok ()) (ParsedSummary.dict []) (fun _ => QueryOutcome.empty) none).lecture.full_script.isSome ∧
    (process_lecture_task { id := 3, status := Status.processing }
        { stt := .ok (some "ts", some "t"), pdf := .ok [(1, "page")],
          summary := .ok (some "sj"), embed := .ok () }
        (.ok ()) (ParsedSummary.dict []) (fun _ => QueryOutcome.empty) none).lecture.summary_json.isSome ∧
    (process_lecture_task { id := 3, status := Status.processing }
        { stt := .ok (some "ts", some "t"), pdf := .ok [(1, "page")],
          summary := .ok (some "sj"), embed := .ok () }
        (.ok ()) (ParsedSummary.dict []) (fun _ => QueryOutcome.empty) none).lecture.current_step = 6 ∧
    ((none : Option PersistFault) = none →
      (process_lecture_task { id := 3, status := Status.processing }
        { stt := .ok (some "ts", some "t"), pdf := .ok [(1, "page")],
          summary := .ok (some "sj"), embed := .ok () }
        (.ok ()) (ParsedSummary.dict []) (fun _ => QueryOutcome.empty) none).chunks ≠ []) :=
  C1_completed_invariant _ _ _ _ _ _ rfl rfl

/-- C2: on every execution of `process_lecture_task`, an exception (from a
tier or from the persist step) makes the task re-raise, and the except
handler sets the status to `failed` exactly when the row was still
`processing` at that moment — a terminal `completed` or `failed` status is
never overwritten — and the task is configured with `max_retries = 0`, so
no retry happens inside the orchestrator. -/
theorem C2_failure_semantics :
    (∀ s, mark_lecture_as_failed s = Status.failed ↔
        (s = Status.processing ∨ s = Status.failed)) ∧
    (∀ s, s ≠ Status.processing → mark_lecture_as_failed s = s) ∧
    (∀ (lec0 : Lecture) (beh : CapBehavior) (mapLoad : CapOutcome Unit)
        (mapParsed : ParsedSummary) (mapQuery : Nat → QueryOutcome)
        (pf : Option PersistFault),
        ((process_lecture_task lec0 beh mapLoad mapParsed mapQuery pf).raised = true ↔
          (process_lecture_task lec0 beh mapLoad mapParsed mapQuery pf).statusAtRaise ≠ none) ∧
        (∀ s, (process_lecture_task lec0 beh mapLoad mapParsed mapQuery pf).statusAtRaise =
            some s →
          (process_lecture_task lec0 beh mapLoad mapParsed mapQuery pf).lecture.status =
            mark_lecture_as_failed s) ∧
        ((process_lecture_task lec0 beh mapLoad mapParsed mapQuery pf).statusAtRaise =
            some Status.completed →
          (process_lecture_task lec0 beh mapLoad mapParsed mapQuery pf).lecture.status =
            Status.completed)) ∧
    process_lecture_task_max_retries = 0 := by
  refine ⟨?_, ?_, ?_, rfl⟩
  · intro s
    cases s <;> simp [mark_lecture_as_failed]
  · intro s h
    cases s <;> simp_all [mark_lecture_as_failed]
  · intro lec0 beh mL mP mQ pf
    rcases run_shape lec0 beh mL mP mQ pf with ⟨lec, c, rows, heq, _⟩ | hs
    · rw [heq]
      refine ⟨by simp [raiseOut], ?_, ?_⟩
      · intro s hsome
        have h2 : lec.status = s := by simpa [raiseOut] using hsome
        simp [raiseOut, h2]
      · intro hsome
        have h2 : lec.status = Status.completed := by simpa [raiseOut] using hsome
        simp [raiseOut, h2, mark_lecture_as_failed]
    · obtain ⟨hraised, hsar, _⟩ := hs
      refine ⟨by simp [hraised, hsar], ?_, ?_⟩
      · intro s hsome
        rw [hsar] at hsome
        exact absurd hsome (by simp)
      · intro hsome
        rw [hsar] at hsome
        exact absurd hsome (by simp)

/-- C2 witness: a concrete run whose STT capability raises; the row was
still processing at the except block, and the final status is `failed`. -/
theorem C2_failure_semantics_witness :
    (process_lecture_task { id := 5, status := Status.processing }
        { stt := .exn "boom", pdf := .ok [(1, "p")],
          summary := .ok (some "s"), embed := .ok () }
        (.ok ()) (ParsedSummary.dict []) (fun _ => QueryOutcome.empty) none).lecture.status =
      Status.failed :=
  (C2_failure_semantics.2.2.1 { id := 5, status := Status.processing }
      { stt := .exn "boom", pdf := .ok [(1, "p")],
        summary := .ok (some "s"), embed := .ok () }
      (.ok ()) (ParsedSummary.dict []) (fun _ => QueryOutcome.empty) none).2.1
    Status.processing rfl

/-- C3 counterexample: the claim — the reaper's flip is an isolating
lock-then-recheck-then-update, so a concurrently completed job is never
flipped from `completed` to `failed` — fails as stated.  The loop body
saves the stale snapshot object with `status = failed` without
`select_for_update` and without re-checking: when the orchestrator's
completed-write lands between the snapshot read and the save, the
completed row (id 1) ends up `failed`. -/
theorem C3_counterexample :
    (reaper_fold false
        [{ id := 1, status := Status.completed, full_script := some "s", summary_json := some "j", current_step := 6 }]
        [{ id := 1, status := Status.processing }]).1.map Lecture.status =
      [Status.failed] :=
  rfl

/-- C3 (amended): each flip performed by the reaper loop is an
unconditional save of `status = failed` built from the snapshot row, with
no lock and no re-check, so every row carrying the snapshot's id ends up
`failed` whatever its current status; the helper
`mark_lecture_as_failed` — used by the orchestrator's failure path but not
by the reaper — is the one that flips only rows still `processing`. -/
theorem C3_reaper_flip_unconditional :
    (∀ (db : List Lecture) (snap row : Lecture),
        row ∈ (reaper_fold false db [snap]).1 → row.id = snap.id →
          row.status = Status.failed) ∧
    (∀ s, mark_lecture_as_failed s = Status.failed ↔
        (s = Status.processing ∨ s = Status.failed)) := by
  constructor
  · intro db snap row hmem hid
    have hmem2 : row ∈ save_row db { snap with status := Status.failed } := hmem
    unfold save_row at hmem2
    rcases List.mem_map.mp hmem2 with ⟨l, _, hrow⟩
    by_cases h : l.id = ({ snap with status := Status.failed } : Lecture).id
    · rw [if_pos h] at hrow
      rw [← hrow]
    · rw [if_neg h] at hrow
      rw [← hrow] at hid
      exact absurd hid h
  · intro s
    cases s <;> simp [mark_lecture_as_failed]

/-- C3 witness: the flipped row of the counterexample run is indeed
`failed`, obtained by applying the amended theorem at that run. -/
theorem C3_reaper_flip_witness :
    ({ id := 1, status := Status.failed } : Lecture).status = Status.failed :=
  C3_reaper_flip_unconditional.1
    [{ id := 1, status := Status.completed }]
    { id := 1, status := Status.processing }
    { id := 1, status := Status.failed }
    (by decide) rfl

/-- C9: for a readable PDF with `n ≥ 1` pages, whatever order the page
futures complete in, `process_pdf` returns exactly `n` pairs whose page
numbers are `1, …, n` in strictly ascending order, and a page whose
processing raised contributes `(pageNumber, "")` instead of being
dropped. -/
theorem C9_process_pdf_complete (n : Nat) (_hn : 1 ≤ n) (oc : Nat → PageOutcome)
    (order : List Nat) (hperm : order.Perm (List.range n)) :
    (process_pdf oc order).length = n ∧
    (process_pdf oc order).map Prod.fst = (List.range n).map (fun i => i + 1) ∧
    List.Sorted pageLT (process_pdf oc order) ∧
    (∀ i, i < n → ∀ m, oc i = .exn m → (i + 1, "") ∈ process_pdf oc order) := by
  have hkey := process_pdf_eq_canonical n oc order hperm
  rw [hkey]
  refine ⟨?_, canonical_pdf_keys n oc, canonical_pdf_sorted n oc, ?_⟩
  · unfold canonical_pdf
    rw [List.length_map, List.length_range]
  · intro i hi m hm
    unfold canonical_pdf
    refine List.mem_map.mpr ⟨i, List.mem_range.mpr hi, ?_⟩
    rw [hm]
    rfl

/-- C9 witness: three pages delivered in the order 2, 0, 1, with page
index 1 raising. -/
theorem C9_process_pdf_witness :
    (process_pdf (fun i => if i = 1 then PageOutcome.exn "fail" else PageOutcome.ok "c")
        [2, 0, 1]).length = 3 ∧
    (2, "") ∈ process_pdf
        (fun i => if i = 1 then PageOutcome.exn "fail" else PageOutcome.ok "c")
        [2, 0, 1] := by
  have h := C9_process_pdf_complete 3 (by decide)
      (fun i => if i = 1 then PageOutcome.exn "fail" else PageOutcome.ok "c")
      [2, 0, 1] (by decide)
  exact ⟨h.1, h.2.2.2 1 (by decide) "fail" (by decide)⟩

/-- C10 counterexample: the claim — `create_semantic_mappings` never
raises to its caller, so the Map stage can never fail the pipeline —
fails as stated.  `summary_data.get("summary_list", [])` at
`services.py` line 446 sits outside every try/except, so a parsed summary
that is valid JSON but not a dict (e.g. `summary_json = "[]"`, reachable
because `get_summary_from_gemini` round-trips any JSON without shape
validation) raises `AttributeError` out of the function; the exception
propagates through the Map stage and the job ends `failed` at
`current_step = 5`, the task re-raising. -/
theorem C10_counterexample :
    create_semantic_mappings 1 (.ok ())
        (ParsedSummary.notADict "AttributeError: list object has no attribute get")
        (fun _ => QueryOutcome.empty) =
      .error "AttributeError: list object has no attribute get" ∧
    (process_lecture_task { id := 1, status := Status.processing }
        { stt := .ok (some "a", some "b"), pdf := .ok [(1, "x")],
          summary := .ok (some "s"), embed := .ok () }
        (.ok ()) (ParsedSummary.notADict "AttributeError: list object has no attribute get")
        (fun _ => QueryOutcome.empty) none).lecture.status = Status.failed ∧
    (process_lecture_task { id := 1, status := Status.processing }
        { stt := .ok (some "a", some "b"), pdf := .ok [(1, "x")],
          summary := .ok (some "s"), embed := .ok () }
        (.ok ()) (ParsedSummary.notADict "AttributeError: list object has no attribute get")
        (fun _ => QueryOutcome.empty) none).raised = true :=
  ⟨rfl, rfl, rfl⟩

/-- C10 (amended): `create_semantic_mappings` returns the empty list —
without raising — when the job's vector collection cannot be loaded, when
`json.loads` fails on the summary JSON, and when every per-topic query
fails over well-shaped items; but a parsed summary whose top-level value
is not a dict, and likewise a non-dict `summary_list` element, raises an
uncaught exception out of the function, failing the pipeline (the job
ends `failed`, not `completed`).  A job whose mapping stage returned
nothing still reaches `status = completed` with zero `Mapping` rows. -/
theorem C10_map_stage_behaviour :
    (∀ (lid : Nat) (m : String) (parsed : ParsedSummary)
        (q : Nat → QueryOutcome),
        create_semantic_mappings lid (.exn m) parsed q = .ok []) ∧
    (∀ (lid : Nat) (m : String) (q : Nat → QueryOutcome),
        create_semantic_mappings lid (.ok ()) (.parseError m) q = .ok []) ∧
    (∀ (lid : Nat) (items : List SummaryItem) (q : Nat → QueryOutcome),
        (∀ i, ∃ m, q i = QueryOutcome.exn m) →
        create_semantic_mappings lid (.ok ())
          (.dict (items.map SummaryListItem.dict)) q = .ok []) ∧
    (∀ (lid : Nat) (m : String) (q : Nat → QueryOutcome),
        create_semantic_mappings lid (.ok ()) (.notADict m) q = .error m) ∧
    (∀ (lid : Nat) (m : String) (rest : List SummaryListItem)
        (q : Nat → QueryOutcome),
        create_semantic_mappings lid (.ok ())
          (.dict (SummaryListItem.notADict m :: rest)) q = .error m) ∧
    (∀ (lec0 : Lecture) (ts txt j m : String) (pdfTexts : List (Nat × String))
        (mQ : Nat → QueryOutcome),
        lec0.status = Status.processing → lec0.hasAudio = true → pdfTexts ≠ [] →
        ((process_lecture_task lec0
            { stt := .ok (some ts, some txt), pdf := .ok pdfTexts,
              summary := .ok (some j), embed := .ok () }
            (.ok ()) (.notADict m) mQ none).lecture.status = Status.failed ∧
         (process_lecture_task lec0
            { stt := .ok (some ts, some txt), pdf := .ok pdfTexts,
              summary := .ok (some j), embed := .ok () }
            (.ok ()) (.notADict m) mQ none).lecture.current_step = 5 ∧
         (process_lecture_task lec0
            { stt := .ok (some ts, some txt), pdf := .ok pdfTexts,
              summary := .ok (some j), embed := .ok () }
            (.ok ()) (.notADict m) mQ none).raised = true)) ∧
    (∀ (lec0 : Lecture) (ts txt j m : String) (pdfTexts : List (Nat × String))
        (mQ : Nat → QueryOutcome),
        lec0.hasAudio = true → pdfTexts ≠ [] →
        ((process_lecture_task lec0
            { stt := .ok (some ts, some txt), pdf := .ok pdfTexts,
              summary := .ok (some j), embed := .ok () }
            (.exn m) (ParsedSummary.dict []) mQ none).lecture.status = Status.completed ∧
         (process_lecture_task lec0
            { stt := .ok (some ts, some txt), pdf := .ok pdfTexts,
              summary := .ok (some j), embed := .ok () }
            (.exn m) (ParsedSummary.dict []) mQ none).mappingRows = [])) := by
  refine ⟨fun _ _ _ _ => rfl, fun _ _ _ => rfl, ?_, fun _ _ _ => rfl,
    fun _ _ _ _ => rfl, ?_, ?_⟩
  · intro lid items q hq
    show mappingLoop lid q 0 (items.map SummaryListItem.dict) = .ok []
    exact mappingLoop_all_exn lid q hq 0 items
  · intro lec0 ts txt j m pdfTexts mQ hst hAud hne
    obtain ⟨id0, st0, hA, fs0, sj0, cs0, est0, times0, ca0⟩ := lec0
    cases hst
    cases hA with
    | false => simp at hAud
    | true =>
      cases pdfTexts with
      | nil => exact absurd rfl hne
      | cons t0 trest => exact ⟨rfl, rfl, rfl⟩
  · intro lec0 ts txt j m pdfTexts mQ hAud hne
    obtain ⟨id0, st0, hA, fs0, sj0, cs0, est0, times0, ca0⟩ := lec0
    cases hA with
    | false => simp at hAud
    | true =>
      cases pdfTexts with
      | nil => exact absurd rfl hne
      | cons t0 trest => exact ⟨rfl, rfl⟩

/-- C10 witness: a concrete job with a non-dict parsed summary ends failed
at step 5 with the exception re-raised, and a concrete job whose
collection load raised completes with zero mapping rows — both obtained by
applying the amended theorem. -/
theorem C10_map_stage_witness :
    ((process_lecture_task { id := 7, status := Status.processing }
        { stt := .ok (some "a", some "b"), pdf := .ok [(1, "x")],
          summary := .ok (some "s"), embed := .ok () }
        (.ok ()) (.notADict "AttributeError") (fun _ => QueryOutcome.empty)
        none).lecture.status = Status.failed ∧
     (process_lecture_task { id := 7, status := Status.processing }
        { stt := .ok (some "a", some "b"), pdf := .ok [(1, "x")],
          summary := .ok (some "s"), embed := .ok () }
        (.ok ()) (.notADict "AttributeError") (fun _ => QueryOutcome.empty)
        none).lecture.current_step = 5 ∧
     (process_lecture_task { id := 7, status := Status.processing }
        { stt := .ok (some "a", some "b"), pdf := .ok [(1, "x")],
          summary := .ok (some "s"), embed := .ok () }
        (.ok ()) (.notADict "AttributeError") (fun _ => QueryOutcome.empty)
        none).raised = true) ∧
    ((process_lecture_task { id := 8, status := Status.processing }
        { stt := .ok (some "a", some "b"), pdf := .ok [(1, "x")],
          summary := .ok (some "s"), embed := .ok () }
        (.exn "no collection") (ParsedSummary.dict [])
        (fun _ => QueryOutcome.empty) none).lecture.status = Status.completed ∧
     (process_lecture_task { id := 8, status := Status.processing }
        { stt := .ok (some "a", some "b"), pdf := .ok [(1, "x")],
          summary := .ok (some "s"), embed := .ok () }
        (.exn "no collection") (ParsedSummary.dict [])
        (fun _ => QueryOutcome.empty) none).mappingRows = []) :=
  ⟨C10_map_stage_behaviour.2.2.2.2.2.1 { id := 7, status := Status.processing }
      "a" "b" "s" "AttributeError" [(1, "x")] (fun _ => QueryOutcome.empty)
      rfl rfl (by decide),
   C10_map_stage_behaviour.2.2.2.2.2.2 { id := 8, status := Status.processing }
      "a" "b" "s" "no collection" [(1, "x")] (fun _ => QueryOutcome.empty)
      rfl (by decide)⟩

end MP
